import Mathlib

/-!
Verification of the todo-backend service (Go/Gin + document store).

The handlers in `handlers/todos.go`, the request models in `models/todo.go`
and the identity middleware in `middleware/auth.go` are embedded shallowly:
the document collection is a list of `Todo` documents, the request clock is
an explicit `now : Nat` parameter, object identifiers are `Nat`, and each
handler is a pure function from its inputs to a result record holding the
HTTP status, the response body and the post-state of the collection.
-/

namespace TodoApi

/-- The stored `Todo` document (`models.Todo`): `_id`, `user_id`, `title`,
`description`, `completed`, `created_at`, `updated_at`. Object identifiers
and timestamps are embedded as naturals. -/
structure Todo where
  id : Nat
  user_id : String
  title : String
  description : String
  completed : Bool
  created_at : Nat
  updated_at : Nat
deriving DecidableEq, Repr

/-- The raw JSON body of a create request, before binding. Each field may be
present or absent; `completed` is a field the client may send but which
`models.CreateTodoRequest` does not declare, so binding ignores it. -/
structure RawCreateBody where
  title : Option String
  description : Option String
  completed : Option Bool
deriving DecidableEq, Repr

/-- `models.CreateTodoRequest`: `Title string binding:required`,
`Description string`. -/
structure CreateTodoRequest where
  title : String
  description : String
deriving DecidableEq, Repr

/-- `models.UpdateTodoRequest`: three optional pointer fields. -/
structure UpdateTodoRequest where
  title : Option String
  description : Option String
  completed : Option Bool
deriving DecidableEq, Repr

/-- `c.ShouldBindJSON(&req)` for a create request. `none` input means the
body failed to deserialize. A missing `title` decodes to the zero value `""`
and the `required` binding rejects the zero value, so a missing or empty
title fails the bind. A missing `description` decodes to `""`. The
undeclared `completed` field is dropped. -/
def bindCreate : Option RawCreateBody → Option CreateTodoRequest
  | none => none
  | some b =>
    match b.title with
    | none => none
    | some t => if t = "" then none else some ⟨t, b.description.getD ""⟩

/-- Result of the list handler: status and, on success, the serialized
array of todos (`none` models an error response with no `todos` field). -/
structure ListResult where
  status : Nat
  todos : Option (List Todo)
deriving DecidableEq, Repr

/-- The find call of `handlers.GetTodos` with the owner filter, which keeps
exactly the documents whose user_id field equals the caller identity:
decoding zero documents leaves the Go slice nil, modelled as `none`;
otherwise it yields the matching documents in store order. -/
def mongoFind (store : List Todo) (userID : String) : Option (List Todo) :=
  let found := store.filter (fun t => t.user_id == userID)
  if found = [] then none else some found

/-- `handlers.GetTodos`: requires `user_id` in the context (else 401),
queries documents whose `user_id` equals the caller identity, replaces a
`nil` result with the empty slice, responds 200. -/
def GetTodos (store : List Todo) (userCtx : Option String) : ListResult :=
  match userCtx with
  | none => ⟨401, none⟩
  | some userID => ⟨200, some ((mongoFind store userID).getD [])⟩

/-- Result of a mutating handler: status, the returned todo (if any), and
the collection after the request. -/
structure MutResult where
  status : Nat
  body : Option Todo
  newStore : List Todo
deriving DecidableEq, Repr

/-- `handlers.CreateTodo`: requires identity (else 401), binds the body
(else 400), builds a todo with `UserID = userID`, `Completed = false`, both
timestamps `time.Now()`, inserts it, attaches the generated identifier to
the returned representation, responds 201. -/
def CreateTodo (store : List Todo) (userCtx : Option String)
    (body : Option RawCreateBody) (now : Nat) (newID : Nat) : MutResult :=
  match userCtx with
  | none => ⟨401, none, store⟩
  | some userID =>
    match bindCreate body with
    | none => ⟨400, none, store⟩
    | some req =>
      let todo : Todo :=
        { id := newID, user_id := userID, title := req.title,
          description := req.description, completed := false,
          created_at := now, updated_at := now }
      ⟨201, some todo, store ++ [todo]⟩

/-- The mutation filter used by `handlers.UpdateTodo` and
`handlers.DeleteTodo`: a document matches iff its identifier equals the
path identifier AND its owner field equals the caller identity. -/
def matchesFilter (objectID : Nat) (userID : String) (t : Todo) : Bool :=
  t.id == objectID && t.user_id == userID

/-- The `$set` document built by `handlers.UpdateTodo`: `updated_at` is
always set to `time.Now()`; `title`, `description`, `completed` are set
only when the corresponding request pointer is non-nil. -/
def applyUpdate (req : UpdateTodoRequest) (now : Nat) (t : Todo) : Todo :=
  { t with
    updated_at := now,
    title := req.title.getD t.title,
    description := req.description.getD t.description,
    completed := req.completed.getD t.completed }

/-- `collection.UpdateOne`: applies `f` to the first document matching `p`,
leaving the rest unchanged. -/
def updateFirst (p : Todo → Bool) (f : Todo → Todo) : List Todo → List Todo
  | [] => []
  | t :: ts => if p t then f t :: ts else t :: updateFirst p f ts

/-- `collection.DeleteOne`: removes the first document matching `p`. -/
def deleteFirst (p : Todo → Bool) : List Todo → List Todo
  | [] => []
  | t :: ts => if p t then ts else t :: deleteFirst p ts

/-- `handlers.UpdateTodo`: requires identity (401); parses the path id
(`none` models a malformed hex identifier, 400); binds the partial body
(400); `UpdateOne` with the id-and-owner filter; `MatchedCount == 0` gives
404; otherwise the first match is updated, re-read with `FindOne` on the
same filter and returned with 200 (a failed re-read surfaces as 500). -/
def UpdateTodo (store : List Todo) (userCtx : Option String)
    (idParam : Option Nat) (body : Option UpdateTodoRequest)
    (now : Nat) : MutResult :=
  match userCtx with
  | none => ⟨401, none, store⟩
  | some userID =>
    match idParam with
    | none => ⟨400, none, store⟩
    | some objectID =>
      match body with
      | none => ⟨400, none, store⟩
      | some req =>
        match store.find? (matchesFilter objectID userID) with
        | none => ⟨404, none, store⟩
        | some _ =>
          let store' :=
            updateFirst (matchesFilter objectID userID) (applyUpdate req now) store
          match store'.find? (matchesFilter objectID userID) with
          | none => ⟨500, none, store'⟩
          | some updated => ⟨200, some updated, store'⟩

/-- `handlers.DeleteTodo`: requires identity (401); parses the path id
(400); `DeleteOne` with the id-and-owner filter; `DeletedCount == 0` gives
404; otherwise 200 with a message body (no todo returned). -/
def DeleteTodo (store : List Todo) (userCtx : Option String)
    (idParam : Option Nat) : MutResult :=
  match userCtx with
  | none => ⟨401, none, store⟩
  | some userID =>
    match idParam with
    | none => ⟨400, none, store⟩
    | some objectID =>
      match store.find? (matchesFilter objectID userID) with
      | none => ⟨404, none, store⟩
      | some _ => ⟨200, none, deleteFirst (matchesFilter objectID userID) store⟩

/-- The attributes of the Set-Cookie response header written by the
middleware call to c.SetCookie: name, value, max age in seconds, path,
domain, the secure flag and the httpOnly flag. -/
structure SetCookieHeader where
  name : String
  value : String
  maxAge : Nat
  path : String
  domain : String
  secure : Bool
  httpOnly : Bool
deriving DecidableEq, Repr

/-- What the middleware leaves behind: an optional Set-Cookie response
header and the user_id context key set by c.Set for handlers to read. -/
structure MwResult where
  setCookie : Option SetCookieHeader
  ctxUserID : Option String
deriving DecidableEq, Repr

/-- The cookie name: the COOKIE_NAME environment value when non-empty
(os.Getenv yields the empty string when the variable is absent), and the
default literal otherwise. -/
def resolveCookieName (env : String) : String :=
  if env = "" then "todo_user_id" else env

/-- `middleware.AuthMiddleware`: reads the identity cookie (`none` models a
missing cookie). If missing or empty, a fresh UUID (`freshUUID`, the value
the uuid library returns) becomes the identity and a cookie with max-age
86400 seconds, root path, empty domain, not secure, HTTP-only is set. The
resolved identity is always stored under the user_id context key and the
request always proceeds to the next handler. -/
def AuthMiddleware (env : String) (cookie : Option String)
    (freshUUID : String) : MwResult :=
  let cookieName := resolveCookieName env
  match cookie with
  | none =>
    ⟨some ⟨cookieName, freshUUID, 24 * 60 * 60, "/", "", false, true⟩,
      some freshUUID⟩
  | some v =>
    if v = "" then
      ⟨some ⟨cookieName, freshUUID, 24 * 60 * 60, "/", "", false, true⟩,
        some freshUUID⟩
    else
      ⟨none, some v⟩

/-! ## Helper lemmas about the collection operations -/

/-- A document accepted by the mutation filter has the filtered id. -/
theorem matchesFilter_id {i : Nat} {u : String} {t : Todo}
    (h : matchesFilter i u t = true) : t.id = i := by
  simp only [matchesFilter, Bool.and_eq_true, beq_iff_eq] at h
  exact h.1

/-- The update document never touches the id or owner fields, so the
updated document still satisfies the same mutation filter. -/
theorem matchesFilter_applyUpdate (i : Nat) (u : String)
    (req : UpdateTodoRequest) (now : Nat) (t : Todo) :
    matchesFilter i u (applyUpdate req now t) = matchesFilter i u t := by
  simp [matchesFilter, applyUpdate]

/-- If the first match of `p` in `l` is `t` and `f t` still matches, then
the first match after `updateFirst` is `f t`. -/
theorem find_updateFirst (p : Todo → Bool) (f : Todo → Todo) (l : List Todo)
    (t : Todo) (hl : l.find? p = some t) (hf : p (f t) = true) :
    (updateFirst p f l).find? p = some (f t) := by
  induction l with
  | nil => simp at hl
  | cons a as ih =>
    by_cases hp : p a
    · rw [List.find?_cons_of_pos _ hp] at hl
      injection hl with h
      subst h
      simp only [updateFirst, if_pos hp]
      exact List.find?_cons_of_pos _ hf
    · rw [List.find?_cons_of_neg _ hp] at hl
      simp only [updateFirst, if_neg hp]
      rw [List.find?_cons_of_neg _ hp]
      exact ih hl

/-- Every member of `updateFirst p f l` is a member of `l` or the image
under `f` of a member of `l`. -/
theorem mem_updateFirst {p : Todo → Bool} {f : Todo → Todo} {l : List Todo}
    {x : Todo} (hx : x ∈ updateFirst p f l) : x ∈ l ∨ ∃ t ∈ l, x = f t := by
  induction l with
  | nil => simp [updateFirst] at hx
  | cons a as ih =>
    simp only [updateFirst] at hx
    by_cases hp : p a
    · rw [if_pos hp] at hx
      rcases List.mem_cons.mp hx with h | h
      · exact Or.inr ⟨a, List.mem_cons_self a as, h⟩
      · exact Or.inl (List.mem_cons_of_mem _ h)
    · rw [if_neg hp] at hx
      rcases List.mem_cons.mp hx with h | h
      · exact Or.inl (h ▸ List.mem_cons_self a as)
      · rcases ih h with h2 | ⟨t, ht, hxt⟩
        · exact Or.inl (List.mem_cons_of_mem _ h2)
        · exact Or.inr ⟨t, List.mem_cons_of_mem _ ht, hxt⟩

/-- When the stored ids are pairwise distinct, deleting the first document
matched by the id-and-owner filter leaves no document matching it: the
filter pins the id, and at most one document carries that id. -/
theorem find_deleteFirst_none (i : Nat) (u : String) (l : List Todo)
    (hnd : (l.map Todo.id).Nodup) :
    (deleteFirst (matchesFilter i u) l).find? (matchesFilter i u) = none := by
  induction l with
  | nil => simp [deleteFirst]
  | cons a as ih =>
    rw [List.map_cons, List.nodup_cons] at hnd
    by_cases hp : matchesFilter i u a
    · simp only [deleteFirst, if_pos hp]
      rw [List.find?_eq_none]
      intro x hx hpx
      have hxa : x.id = a.id := by
        rw [matchesFilter_id hpx, matchesFilter_id hp]
      exact hnd.1 (hxa ▸ List.mem_map_of_mem Todo.id hx)
    · simp only [deleteFirst, if_neg hp]
      rw [List.find?_cons_of_neg _ hp]
      exact ih hnd.2

/-- The nil-to-empty-slice guard in `handlers.GetTodos` makes the response
exactly the owner-filtered documents, also when none match. -/
theorem mongoFind_getD (store : List Todo) (u : String) :
    (mongoFind store u).getD [] = store.filter (fun t => t.user_id == u) := by
  simp only [mongoFind]
  split
  · next h => rw [h]; rfl
  · rfl

/-! ## Claims -/

/-- Claim C1: for every update or delete request by a caller with identity
u and a well-formed identifier i, the mutation is filtered by id = i AND
owner = u; when no stored todo satisfies both, the handler responds 404
(never 200); and after a successful delete of identifier i, a second delete
of i also responds 404 (given the persistence invariant that stored ids
are pairwise distinct). -/
theorem update_delete_scoped_404 (store : List Todo) (u : String) (i : Nat)
    (req : UpdateTodoRequest) (now : Nat)
    (hnd : (store.map Todo.id).Nodup) :
    ((∀ t ∈ store, ¬(t.id = i ∧ t.user_id = u)) →
      (UpdateTodo store (some u) (some i) (some req) now).status = 404 ∧
      (DeleteTodo store (some u) (some i)).status = 404) ∧
    ((DeleteTodo store (some u) (some i)).status = 200 →
      (DeleteTodo (DeleteTodo store (some u) (some i)).newStore
        (some u) (some i)).status = 404) := by
  constructor
  · intro hno
    have hfind : store.find? (matchesFilter i u) = none := by
      rw [List.find?_eq_none]
      intro x hx hpx
      simp only [matchesFilter, Bool.and_eq_true, beq_iff_eq] at hpx
      exact hno x hx hpx
    exact ⟨by simp [UpdateTodo, hfind], by simp [DeleteTodo, hfind]⟩
  · intro h200
    cases hfind : store.find? (matchesFilter i u) with
    | none => simp [DeleteTodo, hfind] at h200
    | some t =>
      have hdel : (DeleteTodo store (some u) (some i)).newStore
          = deleteFirst (matchesFilter i u) store := by
        simp [DeleteTodo, hfind]
      rw [hdel]
      simp [DeleteTodo, find_deleteFirst_none i u store hnd]

/-- Witness for C1 at concrete inputs: a todo owned by alice is invisible
to a delete by bob (404), and a second delete of an id alice already
deleted is 404. -/
theorem update_delete_scoped_404_witness :
    (DeleteTodo [⟨1, "alice", "a", "", false, 0, 0⟩] (some "bob")
      (some 1)).status = 404 ∧
    (DeleteTodo
      (DeleteTodo [⟨1, "alice", "a", "", false, 0, 0⟩] (some "alice")
        (some 1)).newStore (some "alice") (some 1)).status = 404 :=
  ⟨((update_delete_scoped_404 [⟨1, "alice", "a", "", false, 0, 0⟩] "bob" 1
      ⟨none, none, none⟩ 5 (by decide)).1 (by decide)).2,
    (update_delete_scoped_404 [⟨1, "alice", "a", "", false, 0, 0⟩] "alice" 1
      ⟨none, none, none⟩ 5 (by decide)).2 (by decide)⟩

/-- Claim C2: a list request with identity u responds 200 with exactly the
stored todos whose owner equals u (an empty array, never an absent value,
when none match), and a todo created under identity a with a different
identity than u never appears in the list for u. -/
theorem getTodos_owner_scoped (store : List Todo) (u : String) :
    (GetTodos store (some u)).status = 200 ∧
    (GetTodos store (some u)).todos
      = some (store.filter (fun t => t.user_id == u)) ∧
    (∀ (a : String) (body : Option RawCreateBody) (now nid : Nat) (t : Todo),
      a ≠ u → (CreateTodo store (some a) body now nid).body = some t →
      t ∉ ((GetTodos (CreateTodo store (some a) body now nid).newStore
        (some u)).todos.getD [])) := by
  refine ⟨rfl, ?_, ?_⟩
  · show some ((mongoFind store u).getD []) = _
    rw [mongoFind_getD]
  · intro a body now nid t hne ht hmem
    cases hb : bindCreate body with
    | none => simp [CreateTodo, hb] at ht
    | some breq =>
      simp only [CreateTodo, hb, Option.some.injEq] at ht
      have htu : t.user_id = a := by rw [← ht]
      have : t.user_id = u := by
        have hm2 : t ∈ (CreateTodo store (some a) body now nid).newStore.filter
            (fun x => x.user_id == u) := by
          . exact (by rw [GetTodos, mongoFind_getD] at hmem; exact hmem)
        have := List.mem_filter.mp hm2
        exact beq_iff_eq.mp this.2
      exact hne (htu ▸ this)

/-- Witness for C2 at concrete inputs: the todo alice creates is not in
the list bob receives. -/
theorem getTodos_owner_scoped_witness :
    (⟨7, "alice", "x", "", false, 0, 0⟩ : Todo) ∉
      ((GetTodos (CreateTodo [] (some "alice")
        (some ⟨some "x", none, none⟩) 0 7).newStore
        (some "bob")).todos.getD []) :=
  (getTodos_owner_scoped [] "bob").2.2 "alice" (some ⟨some "x", none, none⟩)
    0 7 ⟨7, "alice", "x", "", false, 0, 0⟩ (by decide) (by decide)

/-- Claim C3: an update request that matches a stored todo (first match t)
responds 200 with exactly the present body fields replaced, absent fields
kept, the updated timestamp refreshed to the current time (strictly above
its prior value, since the clock has advanced past the moment the document
was last written), and id, owner and created timestamp unchanged. -/
theorem updateTodo_partial_fields (store : List Todo) (u : String) (i : Nat)
    (req : UpdateTodoRequest) (now : Nat) (t : Todo)
    (hfind : store.find? (matchesFilter i u) = some t)
    (hnow : t.updated_at < now) :
    (UpdateTodo store (some u) (some i) (some req) now).status = 200 ∧
    (UpdateTodo store (some u) (some i) (some req) now).body
      = some (applyUpdate req now t) ∧
    (applyUpdate req now t).title = req.title.getD t.title ∧
    (applyUpdate req now t).description
      = req.description.getD t.description ∧
    (applyUpdate req now t).completed = req.completed.getD t.completed ∧
    (applyUpdate req now t).updated_at = now ∧
    t.updated_at < (applyUpdate req now t).updated_at ∧
    (applyUpdate req now t).id = t.id ∧
    (applyUpdate req now t).user_id = t.user_id ∧
    (applyUpdate req now t).created_at = t.created_at := by
  have hpt : matchesFilter i u t = true := List.find?_some hfind
  have hft : matchesFilter i u (applyUpdate req now t) = true := by
    rw [matchesFilter_applyUpdate]; exact hpt
  have hfind2 := find_updateFirst (matchesFilter i u) (applyUpdate req now)
    store t hfind hft
  refine ⟨?_, ?_, rfl, rfl, rfl, rfl, ?_, rfl, rfl, rfl⟩
  · simp [UpdateTodo, hfind, hfind2]
  · simp [UpdateTodo, hfind, hfind2]
  · simpa [applyUpdate] using hnow

/-- Witness for C3 at concrete inputs: supplying only the completed field
leaves title and description unchanged and refreshes the timestamp. -/
theorem updateTodo_partial_fields_witness :
    (UpdateTodo [⟨1, "alice", "a", "d", false, 0, 0⟩] (some "alice")
      (some 1) (some ⟨none, none, some true⟩) 5).body
      = some ⟨1, "alice", "a", "d", true, 0, 5⟩ :=
  (updateTodo_partial_fields [⟨1, "alice", "a", "d", false, 0, 0⟩] "alice" 1
    ⟨none, none, some true⟩ 5 ⟨1, "alice", "a", "d", false, 0, 0⟩
    (by decide) (by decide)).2.1

/-- Claim C4 counterexample: the update handler performs no title
validation, so after a create with a non-empty title, an update supplying
an empty title succeeds (200) and the stored todo now has the empty string
as its title — a reachable create/update sequence violating the claimed
invariant. -/
theorem empty_title_reachable_cex :
    (CreateTodo [] (some "alice") (some ⟨some "groceries", none, none⟩)
      0 1).status = 201 ∧
    (UpdateTodo
      (CreateTodo [] (some "alice") (some ⟨some "groceries", none, none⟩)
        0 1).newStore
      (some "alice") (some 1) (some ⟨some "", none, none⟩) 5).status = 200 ∧
    (UpdateTodo
      (CreateTodo [] (some "alice") (some ⟨some "groceries", none, none⟩)
        0 1).newStore
      (some "alice") (some 1) (some ⟨some "", none, none⟩) 5).newStore
      = [⟨1, "alice", "", "", false, 0, 5⟩] := by
  refine ⟨rfl, rfl, ?_⟩
  decide

/-- Claim C4 as amended: creation rejects a missing or empty title, so
every todo returned by create has a non-empty title; and updates preserve
non-empty titles provided the request does not itself supply the empty
string as the title — the update handler applies a supplied title without
any non-emptiness check. -/
theorem title_nonempty_amended :
    (∀ (store : List Todo) (u : String) (body : Option RawCreateBody)
      (now nid : Nat) (t : Todo),
      (CreateTodo store (some u) body now nid).body = some t →
      t.title ≠ "") ∧
    (∀ (store : List Todo) (u : String) (body : Option RawCreateBody)
      (now nid : Nat), bindCreate body = none →
      (CreateTodo store (some u) body now nid).status = 400) ∧
    (∀ (store : List Todo) (u : String) (i : Nat)
      (req : UpdateTodoRequest) (now : Nat),
      (∀ t ∈ store, t.title ≠ "") → req.title ≠ some "" →
      ∀ t ∈ (UpdateTodo store (some u) (some i) (some req) now).newStore,
        t.title ≠ "") := by
  refine ⟨?_, ?_, ?_⟩
  · intro store u body now nid t ht
    cases hb : bindCreate body with
    | none => simp [CreateTodo, hb] at ht
    | some breq =>
      have hbt : breq.title ≠ "" := by
        cases body with
        | none => simp [bindCreate] at hb
        | some raw =>
          cases hraw : raw.title with
          | none => simp [bindCreate, hraw] at hb
          | some s =>
            by_cases hs : s = ""
            · simp [bindCreate, hraw, hs] at hb
            · simp only [bindCreate, hraw, if_neg hs,
                Option.some.injEq] at hb
              rw [← hb]
              exact hs
      simp only [CreateTodo, hb, Option.some.injEq] at ht
      rw [← ht]
      exact hbt
  · intro store u body now nid hb
    simp [CreateTodo, hb]
  · intro store u i req now hstore hreq t ht
    cases hfind : store.find? (matchesFilter i u) with
    | none =>
      rw [UpdateTodo] at ht
      simp only [hfind] at ht
      exact hstore t ht
    | some t0 =>
      have hmem : t ∈ updateFirst (matchesFilter i u)
          (applyUpdate req now) store := by
        rw [UpdateTodo] at ht
        simp only [hfind] at ht
        revert ht
        cases (updateFirst (matchesFilter i u)
            (applyUpdate req now) store).find? (matchesFilter i u) with
        | none => intro ht; exact ht
        | some w => intro ht; exact ht
      rcases mem_updateFirst hmem with h | ⟨t1, ht1, rfl⟩
      · exact hstore t h
      · show (applyUpdate req now t1).title ≠ ""
        cases hrt : req.title with
        | none => simp [applyUpdate, hrt]; exact hstore t1 ht1
        | some s =>
          simp only [applyUpdate, Option.getD_some, hrt]
          intro hcon
          exact hreq (by rw [hrt, hcon])

/-- Witness for the amended C4 at concrete inputs: the todo returned by a
valid create has a non-empty title. -/
theorem title_nonempty_amended_witness :
    (⟨1, "alice", "groceries", "", false, 0, 0⟩ : Todo).title ≠ "" :=
  title_nonempty_amended.1 [] "alice" (some ⟨some "groceries", none, none⟩)
    0 1 ⟨1, "alice", "groceries", "", false, 0, 0⟩ (by decide)

/-- Claim C5: a valid create request (title present and non-empty) by a
caller with identity u responds 201, and the returned todo has owner u,
completed false and the persistence-generated identifier attached —
whatever else the raw body carried, including any completed field, which
the binding ignores. -/
theorem createTodo_valid_201 (store : List Todo) (u : String)
    (raw : RawCreateBody) (s : String) (now nid : Nat)
    (htitle : raw.title = some s) (hs : s ≠ "") :
    (CreateTodo store (some u) (some raw) now nid).status = 201 ∧
    (CreateTodo store (some u) (some raw) now nid).body
      = some ⟨nid, u, s, raw.description.getD "", false, now, now⟩ := by
  constructor
  · simp [CreateTodo, bindCreate, htitle, if_neg hs]
  · simp [CreateTodo, bindCreate, htitle, if_neg hs]

/-- Witness for C5 at concrete inputs: the raw body carries a completed
field set to true, yet the created todo has completed = false, owner
alice and the generated identifier. -/
theorem createTodo_valid_201_witness :
    (CreateTodo [] (some "alice") (some ⟨some "buy milk", none, some true⟩)
      3 7).status = 201 ∧
    (CreateTodo [] (some "alice") (some ⟨some "buy milk", none, some true⟩)
      3 7).body = some ⟨7, "alice", "buy milk", "", false, 3, 3⟩ :=
  createTodo_valid_201 [] "alice" ⟨some "buy milk", none, some true⟩
    "buy milk" 3 7 rfl (by decide)

/-- Claim C6: both timestamps of a created todo are set to the current
time of the request, so they are equal at creation. -/
theorem createTodo_timestamps_equal (store : List Todo) (u : String)
    (body : Option RawCreateBody) (now nid : Nat) (t : Todo)
    (ht : (CreateTodo store (some u) body now nid).body = some t) :
    t.created_at = now ∧ t.updated_at = now ∧
    t.created_at = t.updated_at := by
  cases hb : bindCreate body with
  | none => simp [CreateTodo, hb] at ht
  | some breq =>
    simp only [CreateTodo, hb, Option.some.injEq] at ht
    rw [← ht]
    exact ⟨rfl, rfl, rfl⟩

/-- Witness for C6 at a concrete input. -/
theorem createTodo_timestamps_equal_witness :
    (⟨7, "alice", "x", "", false, 3, 3⟩ : Todo).created_at = 3 ∧
    (⟨7, "alice", "x", "", false, 3, 3⟩ : Todo).updated_at = 3 ∧
    (⟨7, "alice", "x", "", false, 3, 3⟩ : Todo).created_at
      = (⟨7, "alice", "x", "", false, 3, 3⟩ : Todo).updated_at :=
  createTodo_timestamps_equal [] "alice" (some ⟨some "x", none, none⟩) 3 7
    ⟨7, "alice", "x", "", false, 3, 3⟩ (by decide)

/-- Claim C7: a create request whose body fails to deserialize, or whose
title is missing or empty, responds 400 and leaves the stored collection
unchanged — validation happens before the insert. -/
theorem createTodo_invalid_400 (store : List Todo) (u : String)
    (body : Option RawCreateBody) (now nid : Nat)
    (hbad : body = none ∨ ∃ raw, body = some raw ∧
      (raw.title = none ∨ raw.title = some "")) :
    (CreateTodo store (some u) body now nid).status = 400 ∧
    (CreateTodo store (some u) body now nid).newStore = store := by
  have hb : bindCreate body = none := by
    rcases hbad with rfl | ⟨raw, rfl, hraw | hraw⟩
    · rfl
    · simp [bindCreate, hraw]
    · simp [bindCreate, hraw]
  exact ⟨by simp [CreateTodo, hb], by simp [CreateTodo, hb]⟩

/-- Witness for C7 at a concrete input: a body with no title field is
rejected with 400 and the collection is unchanged. -/
theorem createTodo_invalid_400_witness :
    (CreateTodo [⟨1, "alice", "a", "", false, 0, 0⟩] (some "alice")
      (some ⟨none, some "d", none⟩) 3 7).status = 400 ∧
    (CreateTodo [⟨1, "alice", "a", "", false, 0, 0⟩] (some "alice")
      (some ⟨none, some "d", none⟩) 3 7).newStore
      = [⟨1, "alice", "a", "", false, 0, 0⟩] :=
  createTodo_invalid_400 [⟨1, "alice", "a", "", false, 0, 0⟩] "alice"
    (some ⟨none, some "d", none⟩) 3 7
    (Or.inr ⟨⟨none, some "d", none⟩, rfl, Or.inl rfl⟩)

/-- With an identity present in the context, the create handler answers
400 or 201, never 401. -/
theorem createTodo_status_of_some (store : List Todo) (u : String)
    (body : Option RawCreateBody) (now nid : Nat) :
    (CreateTodo store (some u) body now nid).status = 400 ∨
    (CreateTodo store (some u) body now nid).status = 201 := by
  cases hb : bindCreate body with
  | none => exact Or.inl (by simp [CreateTodo, hb])
  | some breq => exact Or.inr (by simp [CreateTodo, hb])

/-- With an identity present in the context, the update handler answers
400, 404, 500 or 200, never 401. -/
theorem updateTodo_status_of_some (store : List Todo) (u : String)
    (idParam : Option Nat) (body : Option UpdateTodoRequest) (now : Nat) :
    (UpdateTodo store (some u) idParam body now).status ≠ 401 := by
  cases idParam with
  | none => simp [UpdateTodo]
  | some i =>
    cases body with
    | none => simp [UpdateTodo]
    | some req =>
      rw [UpdateTodo]
      cases store.find? (matchesFilter i u) with
      | none => simp
      | some t0 =>
        simp only
        cases (updateFirst (matchesFilter i u) (applyUpdate req now)
            store).find? (matchesFilter i u) with
        | none => simp
        | some w => simp

/-- With an identity present in the context, the delete handler answers
400, 404 or 200, never 401. -/
theorem deleteTodo_status_of_some (store : List Todo) (u : String)
    (idParam : Option Nat) :
    (DeleteTodo store (some u) idParam).status ≠ 401 := by
  cases idParam with
  | none => simp [DeleteTodo]
  | some i =>
    rw [DeleteTodo]
    cases store.find? (matchesFilter i u) with
    | none => simp
    | some t0 => simp

/-- The middleware always resolves some identity into the context. -/
theorem authMiddleware_ctx_some (env : String) (cookie : Option String)
    (freshUUID : String) :
    ∃ u0, (AuthMiddleware env cookie freshUUID).ctxUserID = some u0 := by
  cases cookie with
  | none => exact ⟨freshUUID, rfl⟩
  | some v =>
    by_cases hv : v = ""
    · exact ⟨freshUUID, by simp [AuthMiddleware, hv]⟩
    · exact ⟨v, by simp [AuthMiddleware, hv]⟩

/-- Claim C8: when the identity cookie is missing or empty, the middleware
generates a fresh token and sets a response cookie with that value, path
root, max-age 86400 seconds, empty domain, HTTP-only, not secure-flagged;
and in all cases the resolved identity is attached to the request context
(the middleware never rejects the request). -/
theorem authMiddleware_issues_cookie (env : String) (cookie : Option String)
    (freshUUID : String) :
    ((cookie = none ∨ cookie = some "") →
      (AuthMiddleware env cookie freshUUID).setCookie
        = some ⟨resolveCookieName env, freshUUID, 86400, "/", "", false,
            true⟩ ∧
      (AuthMiddleware env cookie freshUUID).ctxUserID = some freshUUID) ∧
    (AuthMiddleware env cookie freshUUID).ctxUserID.isSome = true := by
  constructor
  · rintro (rfl | rfl)
    · exact ⟨rfl, rfl⟩
    · exact ⟨by simp [AuthMiddleware], by simp [AuthMiddleware]⟩
  · obtain ⟨u0, hu⟩ := authMiddleware_ctx_some env cookie freshUUID
    rw [hu]
    rfl

/-- Witness for C8 at concrete inputs: a request with no cookie gets the
full Set-Cookie header with the fresh token and the default cookie name. -/
theorem authMiddleware_issues_cookie_witness :
    (AuthMiddleware "" none "7f9c-uuid").setCookie
      = some ⟨"todo_user_id", "7f9c-uuid", 86400, "/", "", false, true⟩ ∧
    (AuthMiddleware "" none "7f9c-uuid").ctxUserID = some "7f9c-uuid" :=
  (authMiddleware_issues_cookie "" none "7f9c-uuid").1 (Or.inl rfl)

/-- Claim C9: every request routed through the middleware reaches the
handlers with the user_id context key set, so the 401 branch at the start
of each of the four todo handlers is unreachable. -/
theorem handlers_never_401 (env : String) (cookie : Option String)
    (freshUUID : String) (store : List Todo) (body : Option RawCreateBody)
    (ubody : Option UpdateTodoRequest) (idParam : Option Nat)
    (now nid : Nat) :
    (AuthMiddleware env cookie freshUUID).ctxUserID.isSome = true ∧
    (GetTodos store (AuthMiddleware env cookie freshUUID).ctxUserID).status
      ≠ 401 ∧
    (CreateTodo store (AuthMiddleware env cookie freshUUID).ctxUserID body
      now nid).status ≠ 401 ∧
    (UpdateTodo store (AuthMiddleware env cookie freshUUID).ctxUserID
      idParam ubody now).status ≠ 401 ∧
    (DeleteTodo store (AuthMiddleware env cookie freshUUID).ctxUserID
      idParam).status ≠ 401 := by
  obtain ⟨u0, hu⟩ := authMiddleware_ctx_some env cookie freshUUID
  rw [hu]
  refine ⟨rfl, by simp [GetTodos], ?_, updateTodo_status_of_some store u0
    idParam ubody now, deleteTodo_status_of_some store u0 idParam⟩
  rcases createTodo_status_of_some store u0 body now nid with h | h <;>
    simp [h]

/-- Witness for C9 at concrete inputs. -/
theorem handlers_never_401_witness :
    (GetTodos [] (AuthMiddleware "" none "7f9c-uuid").ctxUserID).status
      ≠ 401 :=
  (handlers_never_401 "" none "7f9c-uuid" [] none none none 0 0).2.1

/-- Claim C10: a request presenting a non-empty identity cookie gets no
Set-Cookie header in the response, and the presented value passes through
unchanged as the resolved identity — the max-age is refreshed only for a
missing or empty cookie, never for a returning caller. -/
theorem authMiddleware_passthrough (env v freshUUID : String)
    (hv : v ≠ "") :
    (AuthMiddleware env (some v) freshUUID).setCookie = none ∧
    (AuthMiddleware env (some v) freshUUID).ctxUserID = some v := by
  constructor
  · simp [AuthMiddleware, hv]
  · simp [AuthMiddleware, hv]

/-- Witness for C10 at concrete inputs: a returning caller keeps its
identity and receives no cookie. -/
theorem authMiddleware_passthrough_witness :
    (AuthMiddleware "" (some "alice") "7f9c-uuid").setCookie = none ∧
    (AuthMiddleware "" (some "alice") "7f9c-uuid").ctxUserID
      = some "alice" :=
  authMiddleware_passthrough "" "alice" "7f9c-uuid" (by decide)

end TodoApi
